import Mathlib

/-!
Shallow embedding of the coordination surface of
`src/claudeditor/src-tauri/src/main.rs` (the ClaudEditor Tauri shell):
the application state, the Tauri commands `initialize_powerautomation`,
`create_project`, `get_projects`, `get_mcp_services`, `discover_mcp_tools`,
`get_ai_agents` and `list_directory`, and a small operation machine over them.

Rust `HashMap<String, V>` is embedded as an association list with
replace-or-insert; Rust `Result<T, String>` as `Except String T`;
external effects (the constructors in the missing `mod powerautomation` /
`mod mcp`, directory creation, directory reading) are passed in as explicit
oracle arguments or modelled from the spec where noted.
-/

/-- Embeds the `Project` struct of main.rs (timestamps as naturals). -/
structure Project where
  id : String
  name : String
  path : String
  created_at : Nat
  last_modified : Nat
  description : Option String
  tags : List String
deriving DecidableEq, Repr

/-- Embeds the `MCPService` struct of main.rs. -/
structure MCPService where
  id : String
  name : String
  url : String
  status : String
  capabilities : List String
deriving DecidableEq, Repr

/-- Embeds the `AIAgent` struct of main.rs. -/
structure AIAgent where
  id : String
  name : String
  agent_type : String
  status : String
  capabilities : List String
deriving DecidableEq, Repr

/-- Modelled from the spec: the internals of `PowerAutomationCore` live in
`mod powerautomation`, which is not under src/. The spec treats the core as
an opaque instance constructed by `PowerAutomationCore::new()`; we track
distinct constructed instances by an instance identifier. -/
structure PowerAutomationCore where
  instanceId : Nat
deriving DecidableEq, Repr

/-- Modelled from the spec: the internals of `MCPCoordinator` live in
`mod mcp`, which is not under src/. Per the spec (§3, §4.2, §6) the
coordinator holds the configured Provider Descriptors and a deterministic
probe outcome per provider address (`some caps` = reachable with that
capability list, `none` / absent = unreachable). -/
structure ProviderDescriptor where
  id : String
  name : String
  address : String
  declared_capabilities : List String
deriving DecidableEq, Repr

structure MCPCoordinator where
  providers : List ProviderDescriptor
  probes : List (String × Option (List String))
deriving DecidableEq, Repr

/-- Probe outcome for one provider address: a missing key means unreachable. -/
def probeOf (c : MCPCoordinator) (addr : String) : Option (List String) :=
  (c.probes.lookup addr).getD none

/-- Stable sort of the configured providers by `provider_id`. -/
def sortProvidersById (ps : List ProviderDescriptor) : List ProviderDescriptor :=
  List.insertionSort (fun p q => p.id ≤ q.id) ps

/-- Modelled from the spec: the body of `MCPCoordinator::discover_tools` is in
`mod mcp`, not under src/. Per spec §4.2 and §7 it probes every configured
provider, absorbs per-provider failures (an unreachable provider contributes
no returned entry but never fails the call), and produces its output in a
deterministic order given by a stable sort on `provider_id`; main.rs fixes
its success type to `Vec<String>`, so the returned entries are the
discovered tool-name strings, grouped by provider in sorted id order. -/
def MCPCoordinator.discover_tools (c : MCPCoordinator) : Except String (List String) :=
  .ok ((sortProvidersById c.providers).flatMap (fun p => (probeOf c p.address).getD []))

/-- Embeds the `AppState` struct of main.rs: each `Mutex<HashMap<String, V>>`
becomes an association list keyed by the id, each `Mutex<Option<T>>` an
`Option T`. -/
structure AppState where
  projects : List (String × Project)
  mcp_services : List (String × MCPService)
  ai_agents : List (String × AIAgent)
  mcp_coordinator : Option MCPCoordinator
  powerautomation_core : Option PowerAutomationCore
deriving DecidableEq, Repr

/-- Replace-or-insert of Rust `HashMap::insert`: if the key is present its
value is replaced, otherwise the pair is appended. -/
def hmInsert (k : String) (v : α) : List (String × α) → List (String × α)
  | [] => [(k, v)]
  | (k2, v2) :: rest => if k = k2 then (k, v) :: rest else (k2, v2) :: hmInsert k v rest

/-- Records which of the two constructors (`PowerAutomationCore::new`,
`MCPCoordinator::new`) a call to the initialization command invoked. -/
structure InitTrace where
  coreNewCalled : Bool
  mcpNewCalled : Bool
deriving DecidableEq, Repr

/-- Embeds `initialize_powerautomation` (main.rs lines 62-77). The two
constructor calls are fallible external effects; their outcomes are passed
in as `coreRes` and `mcpRes`. The body takes both locks, then runs
`PowerAutomationCore::new()?`, then `MCPCoordinator::new()?`, then assigns
both guards; the `?` operator returns early on the first failure, before
any assignment, so `MCPCoordinator::new` is not invoked when the core
constructor failed (hence the trace `⟨true, false⟩` there). -/
def init_powerautomation (coreRes : Except String PowerAutomationCore)
    (mcpRes : Except String MCPCoordinator) (s : AppState) :
    Except String String × AppState × InitTrace :=
  match coreRes with
  | .error e => (.error e, s, ⟨true, false⟩)
  | .ok core =>
    match mcpRes with
    | .error e => (.error e, s, ⟨true, true⟩)
    | .ok coordinator =>
      (.ok "PowerAutomation initialized successfully",
        { s with powerautomation_core := some core, mcp_coordinator := some coordinator },
        ⟨true, true⟩)

/-- Embeds `create_project` (main.rs lines 79-109): builds the `Project`
record (fresh uuid and both timestamps passed in as `id`/`now`), inserts it
into the projects map, and only then attempts `std::fs::create_dir_all`
(outcome supplied by the `fsCreateDirAll` oracle); a directory-creation
failure returns `Err` without undoing the insertion. -/
def create_project (fsCreateDirAll : String → Except String Unit)
    (id : String) (now : Nat) (name path : String) (description : Option String)
    (s : AppState) : Except String Project × AppState :=
  let project : Project :=
    { id := id, name := name, path := path, created_at := now,
      last_modified := now, description := description, tags := [] }
  let s2 : AppState := { s with projects := hmInsert id project s.projects }
  match fsCreateDirAll path with
  | .error e => (.error ("Failed to create project directory: " ++ e), s2)
  | .ok _ => (.ok project, s2)

/-- Embeds `get_projects` (main.rs lines 112-115): clones the stored values. -/
def get_projects (s : AppState) : Except String (List Project) :=
  .ok (s.projects.map Prod.snd)

/-- Embeds `get_mcp_services` (main.rs lines 118-121): clones the stored values. -/
def get_mcp_services (s : AppState) : Except String (List MCPService) :=
  .ok (s.mcp_services.map Prod.snd)

/-- Embeds `get_ai_agents` (main.rs lines 136-139): clones the stored values. -/
def get_ai_agents (s : AppState) : Except String (List AIAgent) :=
  .ok (s.ai_agents.map Prod.snd)

/-- Embeds `discover_mcp_tools` (main.rs lines 124-133): locks the
coordinator slot; if a coordinator is present it returns the result of
`coordinator.discover_tools()` (the coordinator has no access to
`state.mcp_services`, and the command performs no write), otherwise it
fails with the not-initialized error. The state component of the result is
the (unchanged) application state. -/
def discover_mcp_tools (s : AppState) : Except String (List String) × AppState :=
  match s.mcp_coordinator with
  | some coordinator => (coordinator.discover_tools, s)
  | none => (.error "MCP Coordinator not initialized", s)

/-- Embeds `list_directory` (main.rs lines 163-181). The filesystem read is
the `readDir` oracle; each directory entry is `some (some name)` (an `Ok`
entry whose name is valid UTF-8), `some none` (an `Ok` entry whose name is
not valid UTF-8, for which `to_str` returns `None`), or `none` (an `Err`
entry). Entries that are not `Ok`-with-UTF-8-name are skipped, and the
collected names are sorted ascending (`files.sort()`). -/
def list_directory (readDir : String → Except String (List (Option (Option String))))
    (dir_path : String) : Except String (List String) :=
  match readDir dir_path with
  | .error e => .error ("Failed to read directory " ++ dir_path ++ ": " ++ e)
  | .ok entries =>
      .ok (List.insertionSort (fun a b => a ≤ b)
        (entries.filterMap (fun e => e.getD none)))

/-- One shell-triggered command, with the outcomes of its external effects
carried as data so the state transition is a pure function. -/
inductive Op where
  | opInit (coreRes : Except String PowerAutomationCore) (mcpRes : Except String MCPCoordinator)
  | opCreateProject (fsCreateDirAll : String → Except String Unit)
      (id : String) (now : Nat) (name path : String) (descr : Option String)
  | opGetProjects
  | opGetServices
  | opDiscover
  | opGetAgents

/-- State transition of one command (its returned value is discarded). -/
def step (op : Op) (s : AppState) : AppState :=
  match op with
  | .opInit coreRes mcpRes => (init_powerautomation coreRes mcpRes s).2.1
  | .opCreateProject fs id now name path d => (create_project fs id now name path d s).2
  | .opGetProjects => s
  | .opGetServices => s
  | .opDiscover => (discover_mcp_tools s).2
  | .opGetAgents => s

/-- Runs a sequence of commands from a state. -/
def run (ops : List Op) (s : AppState) : AppState :=
  ops.foldl (fun s op => step op s) s

-- Basic sanity checks of the embedding on concrete inputs.
example : hmInsert "a" 1 [("a", 0), ("b", 2)] = [("a", 1), ("b", 2)] := by decide
example :
    (init_powerautomation (.ok ⟨5⟩) (.ok ⟨[], []⟩)
      ⟨[], [], [], none, none⟩).2.1.powerautomation_core = some ⟨5⟩ := rfl
example :
    (discover_mcp_tools ⟨[], [], [], none, none⟩).1 =
      .error "MCP Coordinator not initialized" := rfl

instance : IsTotal ProviderDescriptor (fun p q => p.id ≤ q.id) :=
  ⟨fun a b => le_total a.id b.id⟩

instance : IsTrans ProviderDescriptor (fun p q => p.id ≤ q.id) :=
  ⟨fun _ _ _ hab hbc => le_trans hab hbc⟩

/-! ## Claims -/

/-- C1, counterexample: in a state whose Coordination Handle is already
published (core instance 0 and a coordinator are stored), a further call to
the initialization command with successful constructor outcomes does NOT
leave the published instances unchanged: it invokes both constructors
(trace `⟨true, true⟩`) and overwrites the published core with the freshly
constructed instance 1. -/
theorem c1_reinit_replaces_instances :
    let s1 : AppState :=
      { projects := [], mcp_services := [], ai_agents := [],
        mcp_coordinator := some ⟨[], []⟩, powerautomation_core := some ⟨0⟩ }
    let out := init_powerautomation (.ok ⟨1⟩) (.ok ⟨[⟨"p", "n", "a", []⟩], []⟩) s1
    out.2.1.powerautomation_core ≠ s1.powerautomation_core ∧
      out.2.1.mcp_coordinator ≠ s1.mcp_coordinator ∧
      out.2.2 = ⟨true, true⟩ ∧ out.1 = .ok "PowerAutomation initialized successfully" := by
  refine ⟨?_, ?_, rfl, rfl⟩ <;> decide

/-- C1, amended: the initialization command is not idempotent. On every
call — in particular on a call made while the handle is already published —
it invokes both constructors and, when both succeed, replaces the published
Automation Core and Coordinator with the freshly constructed instances; N
successful calls therefore construct N instances of each, not one. -/
theorem c1_amended_reinit_reconstructs (s : AppState)
    (core : PowerAutomationCore) (co : MCPCoordinator)
    (hcore : s.powerautomation_core.isSome) (hco : s.mcp_coordinator.isSome) :
    init_powerautomation (.ok core) (.ok co) s =
      (.ok "PowerAutomation initialized successfully",
        { s with powerautomation_core := some core, mcp_coordinator := some co },
        ⟨true, true⟩) := rfl

/-- C1 amended, witness at a concrete published state. -/
theorem c1_amended_witness :
    init_powerautomation (.ok ⟨1⟩) (.ok ⟨[], []⟩)
        ⟨[], [], [], some ⟨[], []⟩, some ⟨0⟩⟩ =
      (.ok "PowerAutomation initialized successfully",
        ⟨[], [], [], some ⟨[], []⟩, some ⟨1⟩⟩, ⟨true, true⟩) :=
  c1_amended_reinit_reconstructs ⟨[], [], [], some ⟨[], []⟩, some ⟨0⟩⟩ ⟨1⟩ ⟨[], []⟩
    (by decide) (by decide)

/-- C2, counterexample: with one configured provider `p1` (reachable, one
tool) and an empty Service Registry, a successful `discover` call returns
the bare tool-name strings and leaves the registry empty — it records no
entry for the configured provider (reachable or `Unreachable`), and its
result is a sequence of strings, not of Capability Catalog entries. -/
theorem c2_discover_skips_registry :
    let s0 : AppState :=
      { projects := [], mcp_services := [], ai_agents := [],
        mcp_coordinator := some ⟨[⟨"p1", "prov", "addr1", []⟩], [("addr1", some ["toolA"])]⟩,
        powerautomation_core := some ⟨0⟩ }
    let out := discover_mcp_tools s0
    out.1 = .ok ["toolA"] ∧ out.2.mcp_services = [] ∧
      out.2.mcp_services.lookup "p1" = none := by
  exact ⟨rfl, rfl, rfl⟩

/-- C2, amended: `discover_mcp_tools` never writes to the Service Registry —
it leaves the whole application state (in particular `mcp_services`)
unchanged in every state — and when a coordinator is present its returned
value is exactly the coordinator's bare tool-name strings from
`discover_tools`, not Capability Catalog entries. -/
theorem c2_amended_discover_pure (s : AppState) :
    (discover_mcp_tools s).2 = s ∧
      (∀ c, s.mcp_coordinator = some c →
        (discover_mcp_tools s).1 = c.discover_tools) := by
  constructor
  · cases h : s.mcp_coordinator <;> simp [discover_mcp_tools, h]
  · intro c hc
    simp [discover_mcp_tools, hc]

/-- C2 amended, witness at a concrete state with a coordinator present. -/
theorem c2_amended_witness :
    (discover_mcp_tools
        ⟨[], [], [], some ⟨[⟨"p1", "prov", "addr1", []⟩], [("addr1", some ["toolA"])]⟩,
          some ⟨0⟩⟩).2 =
      ⟨[], [], [], some ⟨[⟨"p1", "prov", "addr1", []⟩], [("addr1", some ["toolA"])]⟩,
        some ⟨0⟩⟩ ∧
    (discover_mcp_tools
        ⟨[], [], [], some ⟨[⟨"p1", "prov", "addr1", []⟩], [("addr1", some ["toolA"])]⟩,
          some ⟨0⟩⟩).1 =
      MCPCoordinator.discover_tools ⟨[⟨"p1", "prov", "addr1", []⟩], [("addr1", some ["toolA"])]⟩ :=
  ⟨(c2_amended_discover_pure _).1, (c2_amended_discover_pure _).2 _ rfl⟩

/-- C4: a failed initialization leaves the shared state unchanged. If the
Automation Core constructor fails the command returns that error with the
state untouched and the Coordinator constructor never invoked; if the
Coordinator constructor fails after the core succeeded, the command returns
that error with the state untouched (the fresh core is dropped, no partial
handle is retained); and a retry in which both constructors succeed
publishes the handle. -/
theorem c4_failure_leaves_state_unchanged
    (coreRes : Except String PowerAutomationCore)
    (mcpRes : Except String MCPCoordinator) (s : AppState) :
    (∀ e, coreRes = .error e →
      init_powerautomation coreRes mcpRes s = (.error e, s, ⟨true, false⟩)) ∧
    (∀ core e, coreRes = .ok core → mcpRes = .error e →
      init_powerautomation coreRes mcpRes s = (.error e, s, ⟨true, true⟩)) ∧
    (∀ core co, coreRes = .ok core → mcpRes = .ok co →
      (init_powerautomation coreRes mcpRes s).1 =
          .ok "PowerAutomation initialized successfully" ∧
        (init_powerautomation coreRes mcpRes s).2.1.powerautomation_core = some core ∧
        (init_powerautomation coreRes mcpRes s).2.1.mcp_coordinator = some co) := by
  refine ⟨?_, ?_, ?_⟩
  · intro e he; subst he; rfl
  · intro core e hc he; subst hc; subst he; rfl
  · intro core co hc hco; subst hc; subst hco; exact ⟨rfl, rfl, rfl⟩

/-- C4, witness: both failure shapes and a successful retry at concrete inputs. -/
theorem c4_witness :
    init_powerautomation (.error "core boom") (.ok ⟨[], []⟩) ⟨[], [], [], none, none⟩ =
        (.error "core boom", ⟨[], [], [], none, none⟩, ⟨true, false⟩) ∧
      init_powerautomation (.ok ⟨7⟩) (.error "mcp boom") ⟨[], [], [], none, none⟩ =
        (.error "mcp boom", ⟨[], [], [], none, none⟩, ⟨true, true⟩) ∧
      (init_powerautomation (.ok ⟨7⟩) (.ok ⟨[], []⟩) ⟨[], [], [], none, none⟩).1 =
        .ok "PowerAutomation initialized successfully" :=
  ⟨(c4_failure_leaves_state_unchanged (.error "core boom") (.ok ⟨[], []⟩)
      ⟨[], [], [], none, none⟩).1 "core boom" rfl,
    (c4_failure_leaves_state_unchanged (.ok ⟨7⟩) (.error "mcp boom")
      ⟨[], [], [], none, none⟩).2.1 ⟨7⟩ "mcp boom" rfl rfl,
    ((c4_failure_leaves_state_unchanged (.ok ⟨7⟩) (.ok ⟨[], []⟩)
      ⟨[], [], [], none, none⟩).2.2 ⟨7⟩ ⟨[], []⟩ rfl rfl).1⟩

/-- C6: `get_mcp_services` never returns an error: in every state it returns
`Ok` with the sequence of stored catalog entries, and when nothing has been
discovered yet (the registry is empty) it returns `Ok` with the empty
sequence. -/
theorem c6_get_services_never_fails (s : AppState) :
    get_mcp_services s = .ok (s.mcp_services.map Prod.snd) ∧
      (s.mcp_services = [] → get_mcp_services s = .ok []) := by
  refine ⟨rfl, ?_⟩
  intro h
  simp [get_mcp_services, h]

/-- C6, witness at the empty registry. -/
theorem c6_witness :
    get_mcp_services ⟨[], [], [], none, none⟩ =
        .ok (([] : List (String × MCPService)).map Prod.snd) ∧
      get_mcp_services ⟨[], [], [], none, none⟩ = .ok [] :=
  ⟨(c6_get_services_never_fails ⟨[], [], [], none, none⟩).1,
    (c6_get_services_never_fails ⟨[], [], [], none, none⟩).2 rfl⟩

/-- C7: construction order and joint publication. The Coordinator
constructor is invoked only when the Automation Core constructor was
invoked and succeeded (strict order; the engine is never constructed when
the core failed); when both constructions succeed the command publishes
both instances together in its single state update; and whenever the
command fails nothing is published (the state is unchanged). -/
theorem c7_ordered_construction_and_publication
    (coreRes : Except String PowerAutomationCore)
    (mcpRes : Except String MCPCoordinator) (s : AppState) :
    ((init_powerautomation coreRes mcpRes s).2.2.mcpNewCalled = true →
      (init_powerautomation coreRes mcpRes s).2.2.coreNewCalled = true ∧
        ∃ core, coreRes = .ok core) ∧
    (∀ core co, coreRes = .ok core → mcpRes = .ok co →
      init_powerautomation coreRes mcpRes s =
        (.ok "PowerAutomation initialized successfully",
          { s with powerautomation_core := some core, mcp_coordinator := some co },
          ⟨true, true⟩)) ∧
    (∀ e, (init_powerautomation coreRes mcpRes s).1 = .error e →
      (init_powerautomation coreRes mcpRes s).2.1 = s) := by
  refine ⟨?_, ?_, ?_⟩
  · intro h
    cases coreRes with
    | error e => simp [init_powerautomation] at h
    | ok core => exact ⟨by cases mcpRes <;> rfl, core, rfl⟩
  · intro core co hc hm; subst hc; subst hm; rfl
  · intro e he
    cases coreRes with
    | error e2 => rfl
    | ok core =>
      cases mcpRes with
      | error e2 => rfl
      | ok co => simp [init_powerautomation] at he

/-- C7, witness: joint publication on success and no publication when the
core constructor fails, at concrete inputs. -/
theorem c7_witness :
    init_powerautomation (.ok ⟨3⟩) (.ok ⟨[], []⟩) ⟨[], [], [], none, none⟩ =
        (.ok "PowerAutomation initialized successfully",
          ⟨[], [], [], some ⟨[], []⟩, some ⟨3⟩⟩, ⟨true, true⟩) ∧
      (init_powerautomation (.error "core boom") (.ok ⟨[], []⟩)
          ⟨[], [], [], none, none⟩).2.1 =
        ⟨[], [], [], none, none⟩ :=
  ⟨(c7_ordered_construction_and_publication (.ok ⟨3⟩) (.ok ⟨[], []⟩)
      ⟨[], [], [], none, none⟩).2.1 ⟨3⟩ ⟨[], []⟩ rfl rfl,
    (c7_ordered_construction_and_publication (.error "core boom") (.ok ⟨[], []⟩)
      ⟨[], [], [], none, none⟩).2.2 "core boom" rfl⟩

/-- Looking up the key just inserted by replace-or-insert yields the new value. -/
theorem hmInsert_lookup (k : String) (v : α) (m : List (String × α)) :
    (hmInsert k v m).lookup k = some v := by
  induction m with
  | nil => simp [hmInsert, List.lookup]
  | cons hd tl ih =>
    obtain ⟨k2, v2⟩ := hd
    by_cases h : k = k2
    · simp [hmInsert, h, List.lookup]
    · simp only [hmInsert, if_neg h, List.lookup]
      have hbeq : (k == k2) = false := beq_false_of_ne h
      simp [hbeq, ih]

/-- C10: `create_project` inserts the new project before attempting to
create the project directory, so when directory creation fails the command
returns an error while the new project entry remains stored in the
projects map under its id. -/
theorem c10_error_path_keeps_insertion
    (fsCreateDirAll : String → Except String Unit)
    (id : String) (now : Nat) (name path : String) (descr : Option String)
    (s : AppState) (e : String) (hfs : fsCreateDirAll path = .error e) :
    (create_project fsCreateDirAll id now name path descr s).1 =
        .error ("Failed to create project directory: " ++ e) ∧
      ((create_project fsCreateDirAll id now name path descr s).2.projects).lookup id =
        some { id := id, name := name, path := path, created_at := now,
               last_modified := now, description := descr, tags := [] } := by
  constructor
  · simp [create_project, hfs]
  · simp only [create_project, hfs]
    exact hmInsert_lookup id _ s.projects

/-- C10, witness: a failing mkdir at concrete inputs leaves the inserted
project retrievable while the call errors. -/
theorem c10_witness :
    (create_project (fun _ => .error "denied") "u1" 5 "proj" "/tmp/p" none
        ⟨[], [], [], none, none⟩).1 =
        .error ("Failed to create project directory: " ++ "denied") ∧
      ((create_project (fun _ => .error "denied") "u1" 5 "proj" "/tmp/p" none
        ⟨[], [], [], none, none⟩).2.projects).lookup "u1" =
        some { id := "u1", name := "proj", path := "/tmp/p", created_at := 5,
               last_modified := 5, description := none, tags := [] } :=
  c10_error_path_keeps_insertion (fun _ => .error "denied") "u1" 5 "proj" "/tmp/p"
    none ⟨[], [], [], none, none⟩ "denied" rfl

/-- Shared helper: `discover_mcp_tools` never changes the application state. -/
theorem discover_mcp_tools_state_eq (s : AppState) : (discover_mcp_tools s).2 = s := by
  cases h : s.mcp_coordinator <;> simp [discover_mcp_tools, h]

/-- Shared helper: `create_project` touches only the projects map, so the
coordinator slot is preserved. -/
theorem create_project_coordinator_eq (fs : String → Except String Unit)
    (id : String) (now : Nat) (name path : String) (d : Option String)
    (s : AppState) :
    (create_project fs id now name path d s).2.mcp_coordinator = s.mcp_coordinator := by
  cases h : fs path <;> simp [create_project, h]

/-- Shared helper: the initialization command never clears the coordinator
slot — on failure the state is unchanged and on success the slot is set. -/
theorem init_coordinator_isSome (coreRes : Except String PowerAutomationCore)
    (mcpRes : Except String MCPCoordinator) (s : AppState)
    (h : s.mcp_coordinator.isSome) :
    ((init_powerautomation coreRes mcpRes s).2.1).mcp_coordinator.isSome := by
  cases coreRes with
  | error e => exact h
  | ok core =>
    cases mcpRes with
    | error e => exact h
    | ok co => rfl

/-- Shared helper: no command ever clears the coordinator slot. -/
theorem step_coordinator_isSome (op : Op) (s : AppState)
    (h : s.mcp_coordinator.isSome) : (step op s).mcp_coordinator.isSome := by
  cases op with
  | opInit coreRes mcpRes => exact init_coordinator_isSome coreRes mcpRes s h
  | opCreateProject fs id now name path d =>
    rw [step, create_project_coordinator_eq]; exact h
  | opGetProjects => exact h
  | opGetServices => exact h
  | opDiscover => rw [step, discover_mcp_tools_state_eq]; exact h
  | opGetAgents => exact h

/-- Shared helper: the coordinator slot stays populated along any command
sequence. -/
theorem run_coordinator_isSome (ops : List Op) :
    ∀ s : AppState, s.mcp_coordinator.isSome → (run ops s).mcp_coordinator.isSome := by
  induction ops with
  | nil => intro s h; exact h
  | cons op rest ih =>
    intro s h
    exact ih (step op s) (step_coordinator_isSome op s h)

/-- C3: `discover_mcp_tools` in any state in which the coordinator is absent
fails with the not-initialized error; and starting from any state, after a
successful initialization call followed by any sequence of commands, a
`discover_mcp_tools` call never returns the not-initialized error. -/
theorem c3_not_initialized_ordering :
    (∀ s : AppState, s.mcp_coordinator = none →
      discover_mcp_tools s = (.error "MCP Coordinator not initialized", s)) ∧
    (∀ (coreRes : Except String PowerAutomationCore)
        (mcpRes : Except String MCPCoordinator) (s : AppState) (msg : String),
      (init_powerautomation coreRes mcpRes s).1 = .ok msg →
      ∀ ops : List Op,
        (discover_mcp_tools (run ops (init_powerautomation coreRes mcpRes s).2.1)).1 ≠
          .error "MCP Coordinator not initialized") := by
  constructor
  · intro s h
    simp [discover_mcp_tools, h]
  · intro coreRes mcpRes s msg hok ops
    have hsome : ((init_powerautomation coreRes mcpRes s).2.1).mcp_coordinator.isSome := by
      cases coreRes with
      | error e => simp [init_powerautomation] at hok
      | ok core =>
        cases mcpRes with
        | error e => simp [init_powerautomation] at hok
        | ok co => rfl
    have hrun := run_coordinator_isSome ops _ hsome
    obtain ⟨c, hc⟩ := Option.isSome_iff_exists.1 hrun
    simp [discover_mcp_tools, hc, MCPCoordinator.discover_tools]

/-- C3, witness: pre-initialization failure and post-initialization absence
of the not-initialized error, at concrete inputs. -/
theorem c3_witness :
    discover_mcp_tools ⟨[], [], [], none, none⟩ =
        (.error "MCP Coordinator not initialized", ⟨[], [], [], none, none⟩) ∧
      (discover_mcp_tools (run [Op.opDiscover, Op.opGetServices]
          (init_powerautomation (.ok ⟨0⟩) (.ok ⟨[], []⟩)
            ⟨[], [], [], none, none⟩).2.1)).1 ≠
        .error "MCP Coordinator not initialized" :=
  ⟨c3_not_initialized_ordering.1 ⟨[], [], [], none, none⟩ rfl,
    c3_not_initialized_ordering.2 (.ok ⟨0⟩) (.ok ⟨[], []⟩) ⟨[], [], [], none, none⟩
      "PowerAutomation initialized successfully" rfl [Op.opDiscover, Op.opGetServices]⟩

/-- C5: in any state whose coordinator is present, `discover_mcp_tools`
leaves the state unchanged and two successive calls return the same
sequence; the returned sequence is a function of the configured providers
and their probe outcomes alone, produced in the stable `provider_id`-sorted
provider order, and that provider order is sorted ascending. -/
theorem c5_discover_deterministic (s : AppState) (c : MCPCoordinator)
    (h : s.mcp_coordinator = some c) :
    (discover_mcp_tools s).2 = s ∧
      (discover_mcp_tools ((discover_mcp_tools s).2)).1 = (discover_mcp_tools s).1 ∧
      (discover_mcp_tools s).1 =
        .ok ((sortProvidersById c.providers).flatMap
          (fun p => (probeOf c p.address).getD [])) ∧
      List.Sorted (fun a b : String => a ≤ b)
        ((sortProvidersById c.providers).map (fun p => p.id)) := by
  have hstate : (discover_mcp_tools s).2 = s := discover_mcp_tools_state_eq s
  refine ⟨hstate, by rw [hstate], ?_, ?_⟩
  · simp [discover_mcp_tools, h, MCPCoordinator.discover_tools]
  · have hs : List.Sorted (fun p q : ProviderDescriptor => p.id ≤ q.id)
        (sortProvidersById c.providers) :=
      List.sorted_insertionSort _ _
    exact List.pairwise_map.mpr hs

/-- C5, witness: a concrete coordinator with two providers configured out of
id order; the output groups tools in sorted provider-id order and repeats
identically. -/
theorem c5_witness :
    (discover_mcp_tools
          ⟨[], [], [],
            some ⟨[⟨"p2", "n2", "a2", []⟩, ⟨"p1", "n1", "a1", []⟩],
              [("a1", some ["t1"]), ("a2", some ["t2"])]⟩, none⟩).2 =
        ⟨[], [], [],
          some ⟨[⟨"p2", "n2", "a2", []⟩, ⟨"p1", "n1", "a1", []⟩],
            [("a1", some ["t1"]), ("a2", some ["t2"])]⟩, none⟩ ∧
      (discover_mcp_tools ((discover_mcp_tools
          ⟨[], [], [],
            some ⟨[⟨"p2", "n2", "a2", []⟩, ⟨"p1", "n1", "a1", []⟩],
              [("a1", some ["t1"]), ("a2", some ["t2"])]⟩, none⟩).2)).1 =
        (discover_mcp_tools
          ⟨[], [], [],
            some ⟨[⟨"p2", "n2", "a2", []⟩, ⟨"p1", "n1", "a1", []⟩],
              [("a1", some ["t1"]), ("a2", some ["t2"])]⟩, none⟩).1 ∧
      (discover_mcp_tools
          ⟨[], [], [],
            some ⟨[⟨"p2", "n2", "a2", []⟩, ⟨"p1", "n1", "a1", []⟩],
              [("a1", some ["t1"]), ("a2", some ["t2"])]⟩, none⟩).1 =
        .ok ((sortProvidersById [⟨"p2", "n2", "a2", []⟩, ⟨"p1", "n1", "a1", []⟩]).flatMap
          (fun p => (probeOf ⟨[⟨"p2", "n2", "a2", []⟩, ⟨"p1", "n1", "a1", []⟩],
            [("a1", some ["t1"]), ("a2", some ["t2"])]⟩ p.address).getD [])) ∧
      List.Sorted (fun a b : String => a ≤ b)
        ((sortProvidersById [⟨"p2", "n2", "a2", []⟩, ⟨"p1", "n1", "a1", []⟩]).map
          (fun p => p.id)) :=
  c5_discover_deterministic _ _ rfl

/-- C9: whenever the underlying directory read succeeds, `list_directory`
returns the entry names sorted ascending, and the returned names are
exactly the names of the `Ok` entries whose name is valid UTF-8 — entries
with non-UTF-8 names (and errored entries) are silently omitted. -/
theorem c9_list_directory_sorted_utf8
    (readDir : String → Except String (List (Option (Option String))))
    (p : String) (l : List (Option (Option String))) (h : readDir p = .ok l) :
    ∃ out : List String, list_directory readDir p = .ok out ∧
      List.Sorted (fun a b : String => a ≤ b) out ∧
      ∀ x : String, x ∈ out ↔ some (some x) ∈ l := by
  have hout : list_directory readDir p =
      .ok (List.insertionSort (fun a b => a ≤ b)
        (l.filterMap (fun e => e.getD none))) := by
    simp [list_directory, h]
  refine ⟨_, hout, List.sorted_insertionSort _ _, ?_⟩
  intro x
  rw [List.mem_insertionSort, List.mem_filterMap]
  constructor
  · rintro ⟨a, ha, hfa⟩
    cases a with
    | none => simp at hfa
    | some b =>
      simp only [Option.getD_some] at hfa
      rw [hfa] at ha
      exact ha
  · intro hx
    exact ⟨some (some x), hx, rfl⟩

/-- C9, witness: a directory with one errored entry, one non-UTF-8 name and
two names out of order; the result is sorted and omits the bad entries. -/
theorem c9_witness :
    ∃ out : List String,
      list_directory
          (fun _ => .ok [some (some "b"), none, some none, some (some "a")]) "d" =
        .ok out ∧
      List.Sorted (fun a b : String => a ≤ b) out ∧
      ∀ x : String, x ∈ out ↔
        some (some x) ∈ [some (some "b"), none, some none, some (some "a")] :=
  c9_list_directory_sorted_utf8
    (fun _ => .ok [some (some "b"), none, some none, some (some "a")]) "d"
    [some (some "b"), none, some none, some (some "a")] rfl
